import Mathlib

/-!
Verification development for the Longhurst-province classification core of
the sparse2spatial repository (file sparse2spatial/LonghurstProvince.py).

The embedding below translates the relevant Python routines into Lean:

* Python floats here only ever flow through decimal-literal parsing and
  order comparisons, so they are modelled as rationals; a decimal literal
  is turned into the exact rational it denotes.
* Python exceptions are modelled by an error type returned through Except;
  KeyError and IndexError are the Python LookupError subclasses.
* Python dicts built from literal key-value lists are modelled as
  association lists with first-match lookup (the literals have pairwise
  distinct keys, so this agrees with dict semantics).
* XML DOM nodes are modelled by a record holding, per tag of interest, the
  list of text payloads of the matching elements; a payload of none stands
  for an element without a text child (Python raises AttributeError or
  IndexError when dereferencing it, depending on the access path used).
-/

set_option autoImplicit false

/-- Model of the Python exception classes raised by the code under study.
KeyError and IndexError are subclasses of LookupError in Python;
ValueError, TypeError and AttributeError are not. -/
inductive PyError where
  | keyError
  | indexError
  | attributeError
  | valueError
  | typeError
deriving DecidableEq, Repr

deriving instance DecidableEq for Except

/-- Whether the exception is an instance of the Python LookupError class. -/
def PyError.isLookupError : PyError → Bool
  | .keyError => true
  | .indexError => true
  | _ => false

/-- One polygon vertex, a (longitude, latitude) pair of coordinates. -/
structure Vertex where
  lon : ℚ
  lat : ℚ
deriving DecidableEq, Repr, Inhabited

/-- One entry of the provinces dictionary built by
ParseLonghurstProvinceFile: descriptive name, short code, and the bounding
box corners taken from the first two coordinate pairs of the feature. -/
structure ProvinceBoundary where
  provName : String
  provCode : String
  x1 : ℚ
  y1 : ℚ
  x2 : ℚ
  y2 : ℚ
deriving DecidableEq, Repr

/-- Model of one MarineRegions:longhurst XML element: the fid attribute and
the text payloads of the MarineRegions:provcode and MarineRegions:provdescr
elements.  A payload of none models an element without a text child.
coordTexts models getElementsByTagName for gml:coordinates over the whole
feature element, whose first hit in the source data is the gml:boundedBy
box pair used for the bounding box; geomCoordTexts models the
gml:coordinates elements reached through the MarineRegions:the_geom
elements, holding the polygon rings walked by the crossings test. -/
structure LonghurstNode where
  fid : String
  provcodeTexts : List (Option String)
  provdescrTexts : List (Option String)
  coordTexts : List (Option String)
  geomCoordTexts : List (Option String)
deriving DecidableEq, Repr

/-- The value returned by Get_LonghurstProvince4coord: either the numpy NaN
sentinel or a province number obtained from the num2prov dictionary. -/
inductive ClassifyResult where
  | NaN
  | prov (n : Int)
deriving DecidableEq, Repr

/-- Split a character list at every occurrence of the separator, keeping
empty groups, exactly like the Python str.split method with an explicit
separator argument. -/
def splitOnChar (sep : Char) : List Char → List (List Char)
  | [] => [[]]
  | c :: rest =>
    let r := splitOnChar sep rest
    if c == sep then [] :: r
    else
      match r with
      | [] => [[c]]
      | g :: gs => (c :: g) :: gs

/-- Accumulate a list of decimal digit characters into a natural number. -/
def digitsVal (cs : List Char) : ℕ :=
  cs.foldl (fun a c => a * 10 + (c.toNat - 48)) 0

/-- Model of the Python float builtin on the decimal literals appearing in
the boundary data: an optional sign, an integer part and an optional
fractional part (scientific notation does not occur in the data and is not
modelled).  Returns none where float raises ValueError. -/
def parseFloat (cs : List Char) : Option ℚ :=
  let signed : Int × List Char :=
    match cs with
    | '-' :: t => (-1, t)
    | '+' :: t => (1, t)
    | t => (1, t)
  let ip := signed.2.takeWhile Char.isDigit
  let rest := signed.2.dropWhile Char.isDigit
  match rest with
  | [] =>
    if ip.isEmpty then none
    else some (mkRat (signed.1 * (digitsVal ip : Int)) 1)
  | '.' :: fp =>
    if fp.all Char.isDigit && !(ip.isEmpty && fp.isEmpty) then
      some (mkRat (signed.1 * ((digitsVal ip : Int) * (10 : Int) ^ fp.length + (digitsVal fp : Int)))
                  ((10 : ℕ) ^ fp.length))
    else none
  | _ => none

/-- Effectful map over a list in the Except monad, written as a plain
recursion: the first error aborts the whole traversal, so no prefix of the
results survives an error. -/
def mapExcept {α β : Type} (f : α → Except PyError β) : List α → Except PyError (List β)
  | [] => .ok []
  | a :: as =>
    match f a with
    | .error e => .error e
    | .ok b =>
      match mapExcept f as with
      | .error e => .error e
      | .ok bs => .ok (b :: bs)

/-- Model of the Python statement unpacking p.split at the comma character
into [lon, lat] followed by float conversion of both parts: exactly two
comma-separated components are required (otherwise the unpacking raises
ValueError) and each must be numeric text. -/
def parsePair (cs : List Char) : Except PyError Vertex :=
  match splitOnChar ',' cs with
  | [lonCs, latCs] =>
    match parseFloat lonCs, parseFloat latCs with
    | some lon, some lat => .ok ⟨lon, lat⟩
    | _, _ => .error .valueError
  | _ => .error .valueError

/-- Parse one gml:coordinates text into its vertex list: split on single
spaces, then parse every component as a comma-separated coordinate pair. -/
def parseRing (s : String) : Except PyError (List Vertex) :=
  mapExcept parsePair (splitOnChar ' ' s.toList)

/-- Model of elems[0].firstChild.data: an empty element list raises
IndexError, a first element without a text child raises AttributeError. -/
def firstText : List (Option String) → Except PyError String
  | [] => .error .indexError
  | none :: _ => .error .attributeError
  | some s :: _ => .ok s

/-- Model of the Python two-name unpacking of a split at the comma
character: exactly two components are required, otherwise the unpacking
raises ValueError. -/
def splitTwo (cs : List Char) : Except PyError (List Char × List Char) :=
  match splitOnChar ',' cs with
  | [a, b] => .ok (a, b)
  | _ => .error .valueError

/-- Model of the per-feature body of ParseLonghurstProvinceFile: extract the
provcode, provdescr and first coordinates texts, split the coordinates text
on spaces, unpack the first two space-separated components as comma-separated
corner pairs and convert the four components with float.  Any missing field
or malformed numeric text raises, exactly as in the Python code. -/
def parseNode (node : LonghurstNode) : Except PyError (String × ProvinceBoundary) :=
  match firstText node.provcodeTexts with
  | .error e => .error e
  | .ok provCode =>
    match firstText node.provdescrTexts with
    | .error e => .error e
    | .ok provName =>
      match firstText node.coordTexts with
      | .error e => .error e
      | .ok b =>
        match (splitOnChar ' ' b.toList)[0]? with
        | none => .error .indexError
        | some p0 =>
          match (splitOnChar ' ' b.toList)[1]? with
          | none => .error .indexError
          | some p1 =>
            match splitTwo p0 with
            | .error e => .error e
            | .ok (x1s, y1s) =>
              match splitTwo p1 with
              | .error e => .error e
              | .ok (x2s, y2s) =>
                match parseFloat x1s, parseFloat y1s, parseFloat x2s, parseFloat y2s with
                | some x1, some y1, some x2, some y2 =>
                  .ok (node.fid, { provName := provName, provCode := provCode,
                                   x1 := x1, y1 := y1, x2 := x2, y2 := y2 })
                | _, _, _, _ => .error .valueError

/-- Model of ParseLonghurstProvinceFile: fold the per-feature extraction
over every MarineRegions:longhurst element of the document; the provinces
dictionary is only returned when every feature parsed, since an exception
thrown inside the loop aborts the whole call. -/
def ParseLonghurstProvinceFile (nodes : List LonghurstNode) :
    Except PyError (List (String × ProvinceBoundary)) :=
  mapExcept parseNode nodes

/-- The bounding box test of Get_LonghurstProvince4coord: inLat and inLon
are both set exactly when the query latitude lies between y1 and y2 and the
query longitude lies between x1 and x2, all bounds inclusive. -/
def inBBox (b : ProvinceBoundary) (myLon myLat : ℚ) : Bool :=
  (decide (myLat ≥ b.y1) && decide (myLat ≤ b.y2)) &&
  (decide (myLon ≥ b.x1) && decide (myLon ≤ b.x2))

/-- The provinces dictionary entries whose bounding box test passes, in
dictionary iteration order. -/
def bboxCandidates (provinces : List (String × ProvinceBoundary)) (myLon myLat : ℚ) :
    List (String × ProvinceBoundary) :=
  provinces.filter (fun pb => inBBox pb.2 myLon myLat)

/-- The initial inProvince dictionary: every bounding box candidate mapped
to True. -/
def initialInProvince (provinces : List (String × ProvinceBoundary)) (myLon myLat : ℚ) :
    List (String × Bool) :=
  (bboxCandidates provinces myLon myLat).map (fun pb => (pb.1, true))

/-- The per-edge test of the crossings loop: the two vertex latitudes must
straddle the query latitude (both comparisons inclusive) and the query
longitude must not exceed the longitude of the second vertex; no edge
x-intersection is computed. -/
def edgeCrosses (myLon myLat : ℚ) (p q : Vertex) : Bool :=
  ((decide (p.lat ≥ myLat) && decide (q.lat ≤ myLat)) ||
   (decide (p.lat ≤ myLat) && decide (q.lat ≥ myLat))) &&
  decide (myLon ≤ q.lon)

/-- Crossings contributed by one ring: the loop runs over the index range
0 to length - 2, testing each stored vertex against its successor; a ring
with fewer than two vertices contributes nothing and the pair formed by the
last and first vertices is never tested. -/
def ringCrossings (myLon myLat : ℚ) : List Vertex → ℕ
  | p :: q :: rest =>
    (if edgeCrosses myLon myLat p q then 1 else 0) + ringCrossings myLon myLat (q :: rest)
  | _ => 0

/-- Parse every gml:coordinates text of a feature into its ring; an element
without a text child raises IndexError when its childNodes list is indexed. -/
def featureRings (f : LonghurstNode) : Except PyError (List (List Vertex)) :=
  mapExcept (fun t =>
    match t with
    | none => .error .indexError
    | some s => parseRing s) f.geomCoordTexts

/-- The single crossings counter a feature accumulates: the ring counts of
all coordinate elements of the feature are summed into one total. -/
def crossingsOfFeature (myLon myLat : ℚ) (f : LonghurstNode) : Except PyError ℕ :=
  match featureRings f with
  | .error e => .error e
  | .ok rings => .ok ((rings.map (ringCrossings myLon myLat)).sum)

/-- Assignment to an existing key of a Python dict: the binding is replaced
in place and the key order is unchanged; a missing key is left alone (the
loop only ever assigns keys it just read). -/
def updateAssoc : List (String × Bool) → String → Bool → List (String × Bool)
  | [], _, _ => []
  | (k, v) :: rest, key, b =>
    if k == key then (k, b) :: rest
    else (k, v) :: updateAssoc rest key b

/-- The crossings loop of Get_LonghurstProvince4coord: walk the document
features in order; for a feature whose fid is currently mapped to True,
recompute its entry as the parity of its total crossings count; features
absent from the dictionary or already mapped to False are skipped. -/
def crossingsLoop (myLon myLat : ℚ) (inProv : List (String × Bool)) :
    List LonghurstNode → Except PyError (List (String × Bool))
  | [] => .ok inProv
  | f :: rest =>
    match inProv.lookup f.fid with
    | some true =>
      match crossingsOfFeature myLon myLat f with
      | .error e => .error e
      | .ok n => crossingsLoop myLon myLat (updateAssoc inProv f.fid (decide (n % 2 = 1))) rest
    | _ => crossingsLoop myLon myLat inProv rest

/-- The solution list: the provCode and provName of every key still mapped
to True, read back from the provinces dictionary (a missing key would raise
KeyError, as the Python subscript does). -/
def solutionList (provinces : List (String × ProvinceBoundary)) (inProv : List (String × Bool)) :
    Except PyError (List (String × String)) :=
  mapExcept (fun kb =>
    match provinces.lookup kb.1 with
    | some b => .ok (b.provCode, b.provName)
    | none => .error .keyError)
    (inProv.filter (fun kb => kb.2))

/-- The final dispatch of Get_LonghurstProvince4coord on the solution list:
the empty and the multi-solution branches both return the NaN sentinel; the
single-solution branch subscripts num2prov, raising TypeError when num2prov
is None and KeyError when the code is absent. -/
def resolveSolution (sol : List (String × String)) (num2prov : Option (List (String × Int))) :
    Except PyError ClassifyResult :=
  match sol with
  | [] => .ok .NaN
  | [s] =>
    match num2prov with
    | none => .error .typeError
    | some m =>
      match m.lookup s.1 with
      | some v => .ok (.prov v)
      | none => .error .keyError
  | _ :: _ :: _ => .ok .NaN

/-- Model of Get_LonghurstProvince4coord for a supplied boundary store
(provinces together with the parsed document tree) and num2prov dictionary.
The first component is the returned value or the exception raised; the
second component collects the diagnostic lines printed in verbose mode
(coordinate formatting elided, the printed code and name data kept).  In
the no-solution verbose branch the Python code subscripts provinces for
every key of inProvince while printing, so that branch can itself raise. -/
def Get_LonghurstProvince4coord (myLon myLat : ℚ)
    (provinces : List (String × ProvinceBoundary)) (tree : List LonghurstNode)
    (num2prov : Option (List (String × Int))) (verbose : Bool) :
    Except PyError ClassifyResult × List String :=
  match crossingsLoop myLon myLat (initialInProvince provinces myLon myLat) tree with
  | .error e => (.error e, [])
  | .ok inProv =>
    match solutionList provinces inProv with
    | .error e => (.error e, [])
    | .ok sol =>
      match sol with
      | [] =>
        if verbose then
          match mapExcept (fun kb =>
              match provinces.lookup kb.1 with
              | some b => Except.ok (b.provCode ++ "\t" ++ b.provName)
              | none => Except.error PyError.keyError) inProv with
          | .error e => (.error e, [])
          | .ok log => (.ok .NaN, log)
        else (.ok .NaN, [])
      | [s] =>
        let log := if verbose then [s.1 ++ "\t" ++ s.2] else []
        match num2prov with
        | none => (.error .typeError, log)
        | some m =>
          match m.lookup s.1 with
          | some v => (.ok (.prov v), log)
          | none => (.error .keyError, log)
      | a :: _ :: _ =>
        (.ok .NaN, if verbose then sol.map (fun _ => a.1 ++ "\t" ++ a.2) else [])

/-- A key passed to one of the number-to-code registry functions: either an
integer or the numpy NaN sentinel. -/
inductive NumKey where
  | num (n : Int)
  | nan
deriving DecidableEq, Repr

/-- A key passed to one of the code-keyed registry functions: either a
province code string or the numpy NaN sentinel. -/
inductive CodeKey where
  | code (s : String)
  | nan
deriving DecidableEq, Repr

/-- A value returned by a number-to-code registry function: a province code
string, or the NaN sentinel that the Rosie variant passes through. -/
inductive RegOut where
  | code (s : String)
  | nanOut
deriving DecidableEq, Repr

/-- The num2prov literal of LonghurstProvinceFileNum2Province (MIT list
order). -/
def LonghurstProvinceFileNum2Province_num2prov : List (Int × String) :=
  [(1, "FKLD"), (2, "CHIL"), (3, "TASM"), (4, "BRAZ"), (5, "SATL"), (6, "EAFR"), (7, "AUSW"),
   (8, "AUSE"), (9, "ISSG"), (10, "BENG"), (11, "ARCH"), (12, "SUND"), (13, "GUIN"),
   (14, "PEQD"), (15, "MONS"), (16, "ETRA"), (17, "CNRY"), (18, "GUIA"), (19, "ARAB"),
   (20, "WTRA"), (21, "KURO"), (22, "NECS"), (23, "NASE"), (24, "PSAE"), (25, "CHIN"),
   (26, "INDE"), (27, "CAMR"), (28, "PNEC"), (29, "REDS"), (30, "INDW"), (31, "CARB"),
   (32, "NPTG"), (33, "NATR"), (34, "MEDI"), (35, "CCAL"), (36, "NWCS"), (37, "NASW"),
   (38, "GFST"), (39, "NADR"), (40, "ALSK"), (41, "ARCT"), (42, "SARC"), (43, "NEWZ"),
   (44, "SSTC"), (45, "SPSG"), (46, "PSAW"), (47, "BERS"), (48, "NPPF"), (49, "NPSW"),
   (50, "ANTA"), (51, "SANT"), (52, "WARM"), (53, "APLR"), (54, "BPLR")]

/-- The num2prov literal of MarineRegionsOrg_LonghurstProvinceFileNum2Province
(shape file listing order). -/
def MarineRegionsOrg_LonghurstProvinceFileNum2Province_num2prov : List (Int × String) :=
  [(0, "BPLR"), (1, "ARCT"), (2, "SARC"), (3, "NADR"), (4, "GFST"), (5, "NASW"), (6, "NATR"),
   (7, "WTRA"), (8, "ETRA"), (9, "SATL"), (10, "NECS"), (11, "CNRY"), (12, "GUIN"),
   (13, "GUIA"), (14, "NWCS"), (15, "MEDI"), (16, "CARB"), (17, "NASE"), (18, "BRAZ"),
   (19, "FKLD"), (20, "BENG"), (21, "MONS"), (22, "ISSG"), (23, "EAFR"), (24, "REDS"),
   (25, "ARAB"), (26, "INDE"), (27, "INDW"), (28, "AUSW"), (29, "BERS"), (30, "PSAE"),
   (31, "PSAW"), (32, "KURO"), (33, "NPPF"), (34, "NPSW"), (35, "TASM"), (36, "SPSG"),
   (37, "NPTG"), (38, "PNEC"), (39, "PEQD"), (40, "WARM"), (41, "ARCH"), (42, "ALSK"),
   (43, "CCAL"), (44, "CAMR"), (45, "CHIL"), (46, "CHIN"), (47, "SUND"), (48, "AUSE"),
   (49, "NEWZ"), (50, "SSTC"), (51, "SANT"), (52, "ANTA"), (53, "APLR")]

/-- The Rnum2prov literal of RosieLonghurstProvinceFileNum2Province (the
actual Longhurst numbering). -/
def RosieLonghurstProvinceFileNum2Province_Rnum2prov : List (Int × String) :=
  [(1, "BPLR"), (2, "ARCT"), (3, "SARC"), (4, "NADR"), (5, "GFST"), (6, "NASW"), (7, "NATR"),
   (8, "WTRA"), (9, "ETRA"), (10, "SATL"), (11, "NECS"), (12, "CNRY"), (13, "GUIN"),
   (14, "GUIA"), (15, "NWCS"), (16, "MEDI"), (17, "CARB"), (18, "NASE"), (19, "CHSB"),
   (20, "BRAZ"), (21, "FKLD"), (22, "BENG"), (30, "MONS"), (31, "ISSG"), (32, "EAFR"),
   (33, "REDS"), (34, "ARAB"), (35, "INDE"), (36, "INDW"), (37, "AUSW"), (50, "BERS"),
   (51, "PSAE"), (52, "PSAW"), (53, "KURO"), (54, "NPPF"), (55, "NPSE"), (56, "NPSW"),
   (57, "OCAL"), (58, "TASM"), (59, "SPSG"), (60, "NPTG"), (61, "PNEC"), (62, "PEQD"),
   (63, "WARM"), (64, "ARCH"), (65, "ALSK"), (66, "CCAL"), (67, "CAMR"), (68, "CHIL"),
   (69, "CHIN"), (70, "SUND"), (71, "AUSE"), (72, "NEWZ"), (80, "SSTC"), (81, "SANT"),
   (82, "ANTA"), (83, "APLR"), (99, "LAKE")]

/-- The LonghurstProvinceDict literal of Get_LonghurstProvinceName4Num,
mapping province codes to full descriptive names. -/
def Get_LonghurstProvinceName4Num_dict : List (String × String) :=
  [("ALSK", "AlaskaDownwellingCoastalProvince"),
   ("ANTA", "AntarcticProvince"),
   ("APLR", "AustralPolarProvince"),
   ("ARAB", "NWArabianUpwellingProvince"),
   ("ARCH", "ArchipelagicDeepBasinsProvince"),
   ("ARCT", "AtlanticArcticProvince"),
   ("AUSE", "EastAustralianCoastalProvince"),
   ("AUSW", "AustraliaIndonesiaCoastalProvince"),
   ("BENG", "BenguelaCurrentCoastalProvince"),
   ("BERS", "N.PacificEpicontinentalProvince"),
   ("BPLR", "BorealPolarProvince(POLR)"),
   ("BRAZ", "BrazilCurrentCoastalProvince"),
   ("CAMR", "CentralAmericanCoastalProvince"),
   ("CARB", "CaribbeanProvince"),
   ("CCAL", "CaliforniaUpwellingCoastalProvince"),
   ("CHIL", "ChilePeruCurrentCoastalProvince"),
   ("CHIN", "ChinaSeaCoastalProvince"),
   ("CHSB", "CheasapeakeBayProvince"),
   ("CNRY", "CanaryCoastalProvince(EACB)"),
   ("EAFR", "E.AfricaCoastalProvince"),
   ("ETRA", "EasternTropicalAtlanticProvince"),
   ("FKLD", "SWAtlanticShelvesProvince"),
   ("GFST", "GulfStreamProvince"),
   ("GUIA", "GuianasCoastalProvince"),
   ("GUIN", "GuineaCurrentCoastalProvince"),
   ("INDE", "E.IndiaCoastalProvince"),
   ("INDW", "W.IndiaCoastalProvince"),
   ("ISSG", "IndianS.SubtropicalGyreProvince"),
   ("KURO", "KuroshioCurrentProvince"),
   ("LAKE", "CaspianSea,AralSea"),
   ("MEDI", "MediterraneanSea,BlackSeaProvince"),
   ("MONS", "IndianMonsoonGyresProvince"),
   ("NADR", "N.AtlanticDriftProvince(WWDR)"),
   ("NASE", "N.AtlanticSubtropicalGyralProvince(East)(STGE)"),
   ("NASW", "N.AtlanticSubtropicalGyralProvince(West)(STGW)"),
   ("NATR", "N.AtlanticTropicalGyralProvince(TRPG)"),
   ("NECS", "NEAtlanticShelvesProvince"),
   ("NEWZ", "NewZealandCoastalProvince"),
   ("NPPF", "N.PacificPolarFrontProvince"),
   ("NPSE", "N.PacificSubtropicalGyreProvince(East)"),
   ("NPSW", "N.PacificSubtropicalGyreProvince(West)"),
   ("NPTG", "N.PacificTropicalGyreProvince"),
   ("NWCS", "NWAtlanticShelvesProvince"),
   ("OCAL", "OffshoreCaliforniaCurrentProvince"),
   ("PEQD", "PacificEquatorialDivergenceProvince"),
   ("PNEC", "N.PacificEquatorialCountercurrentProvince"),
   ("PSAE", "PacificSubarcticGyresProvince(East)"),
   ("PSAW", "PacificSubarcticGyresProvince(West)"),
   ("REDS", "RedSea,PersianGulfProvince"),
   ("SANT", "SubantarcticProvince"),
   ("SARC", "AtlanticSubarcticProvince"),
   ("SATL", "SouthAtlanticGyralProvince(SATG)"),
   ("SPSG", "S.PacificSubtropicalGyreProvince"),
   ("SSTC", "S.SubtropicalConvergenceProvince"),
   ("SUND", "SundaArafuraShelvesProvince"),
   ("TASM", "TasmanSeaProvince"),
   ("WARM", "W.PacificWarmPoolProvince"),
   ("WTRA", "WesternTropicalAtlanticProvince")]

/-- The Python dict comprehension inverting a registry: every key-value
pair is swapped.  The literals have pairwise distinct values, so no binding
is overwritten and first-match lookup agrees with dict semantics. -/
def pyInvert (l : List (Int × String)) : List (String × Int) :=
  l.map (fun p => (p.2, p.1))

/-- Single-lookup mode of LonghurstProvinceFileNum2Province: a plain dict
subscript, raising KeyError for every unregistered key, the NaN sentinel
included (NaN is never a dict key). -/
def LonghurstProvinceFileNum2Province : NumKey → Except PyError RegOut
  | .num n =>
    match LonghurstProvinceFileNum2Province_num2prov.lookup n with
    | some c => .ok (.code c)
    | none => .error .keyError
  | .nan => .error .keyError

/-- Single-lookup mode of MarineRegionsOrg_LonghurstProvinceFileNum2Province:
same plain dict subscript. -/
def MarineRegionsOrg_LonghurstProvinceFileNum2Province : NumKey → Except PyError RegOut
  | .num n =>
    match MarineRegionsOrg_LonghurstProvinceFileNum2Province_num2prov.lookup n with
    | some c => .ok (.code c)
    | none => .error .keyError
  | .nan => .error .keyError

/-- Single-lookup mode of RosieLonghurstProvinceFileNum2Province: the dict
subscript is wrapped in a try block; on KeyError the code returns the NaN
sentinel when the input is not finite and otherwise raises ValueError from
the except handler. -/
def RosieLonghurstProvinceFileNum2Province : NumKey → Except PyError RegOut
  | .num n =>
    match RosieLonghurstProvinceFileNum2Province_Rnum2prov.lookup n with
    | some c => .ok (.code c)
    | none => .error .valueError
  | .nan => .ok .nanOut

/-- Single-lookup mode of Get_LonghurstProvinceName4Num: a plain dict
subscript on the code-to-name dict, raising KeyError for every
unregistered key, the NaN sentinel included. -/
def Get_LonghurstProvinceName4Num : CodeKey → Except PyError String
  | .code s =>
    match Get_LonghurstProvinceName4Num_dict.lookup s with
    | some nm => .ok nm
    | none => .error .keyError
  | .nan => .error .keyError

/-- Single-lookup mode of LonghurstProvinceFileNum2Province with
invert=True: a dict subscript on the inverted dict, whose keys are the
code strings. -/
def LonghurstProvinceFileNum2Province_invert : CodeKey → Except PyError Int
  | .code s =>
    match (pyInvert LonghurstProvinceFileNum2Province_num2prov).lookup s with
    | some n => .ok n
    | none => .error .keyError
  | .nan => .error .keyError

/-- A value returned by a code-to-number registry function in the Rosie
variant: a number, or the NaN sentinel passed through. -/
inductive RegOutN where
  | idx (n : Int)
  | nanOut
deriving DecidableEq, Repr

/-- Single-lookup mode of RosieLonghurstProvinceFileNum2Province with
invert=True: on KeyError the except handler calls np.isfinite on the key;
for a string key that call itself raises TypeError, while the NaN sentinel
is passed back unchanged. -/
def RosieLonghurstProvinceFileNum2Province_invert : CodeKey → Except PyError RegOutN
  | .code s =>
    match (pyInvert RosieLonghurstProvinceFileNum2Province_Rnum2prov).lookup s with
    | some n => .ok (.idx n)
    | none => .error .typeError
  | .nan => .ok .nanOut

/-! Supporting lemmas about association lists and the crossings loop. -/

/-- In an association list with pairwise distinct keys, lookup of the key
of a member pair returns its value. -/
theorem lookup_eq_of_mem {α β : Type} [BEq α] [LawfulBEq α] {l : List (α × β)} {p : α × β}
    (hnd : (l.map Prod.fst).Nodup) (hm : p ∈ l) : l.lookup p.1 = some p.2 := by
  induction l with
  | nil => cases hm
  | cons q t ih =>
    rcases List.mem_cons.mp hm with h | h
    · subst h
      simp [List.lookup]
    · have hq : q.1 ∉ t.map Prod.fst := (List.nodup_cons.mp (by simpa using hnd)).1
      have hne : (p.1 == q.1) = false := by
        rw [beq_eq_false_iff_ne]
        intro hcontra
        exact hq (hcontra ▸ List.mem_map_of_mem Prod.fst h)
      rw [List.lookup, hne]
      exact ih (List.nodup_cons.mp (by simpa using hnd)).2 h

/-- Lookup succeeds on any key occurring in the association list. -/
theorem lookup_isSome_of_mem_keys {α β : Type} [BEq α] [LawfulBEq α] {l : List (α × β)} {k : α}
    (h : k ∈ l.map Prod.fst) : ∃ v, l.lookup k = some v := by
  induction l with
  | nil => simp at h
  | cons q t ih =>
    by_cases hk : k = q.1
    · exact ⟨q.2, by simp [List.lookup, hk]⟩
    · have : k ∈ t.map Prod.fst := by
        rcases List.mem_map.mp h with ⟨p, hp, hkp⟩
        rcases List.mem_cons.mp hp with h1 | h1
        · exact absurd (h1 ▸ hkp).symm hk
        · exact hkp ▸ List.mem_map_of_mem Prod.fst h1
      rcases ih this with ⟨v, hv⟩
      exact ⟨v, by rw [List.lookup, beq_eq_false_iff_ne.mpr hk]; exact hv⟩

/-- Updating a binding leaves the key sequence unchanged. -/
theorem updateAssoc_keys (l : List (String × Bool)) (k : String) (b : Bool) :
    (updateAssoc l k b).map Prod.fst = l.map Prod.fst := by
  induction l with
  | nil => rfl
  | cons q t ih =>
    by_cases h : q.1 == k <;> simp [updateAssoc, h, ih]

/-- Lookup at the updated key returns the new value when the key occurs. -/
theorem lookup_updateAssoc_self {l : List (String × Bool)} {k : String} {v : Bool} (b : Bool)
    (h : l.lookup k = some v) : (updateAssoc l k b).lookup k = some b := by
  induction l with
  | nil => simp [List.lookup] at h
  | cons q t ih =>
    by_cases hk : k = q.1
    · simp [updateAssoc, hk, List.lookup]
    · have hne : (k == q.1) = false := beq_eq_false_iff_ne.mpr hk
      have hne2 : (q.1 == k) = false := beq_eq_false_iff_ne.mpr (Ne.symm hk)
      rw [List.lookup, hne] at h
      simp only [updateAssoc, hne2, if_false, Bool.false_eq_true, List.lookup, hne]
      exact ih h

/-- Lookup at any other key is unchanged by the update. -/
theorem lookup_updateAssoc_ne {l : List (String × Bool)} {k k2 : String} (b : Bool)
    (h : k2 ≠ k) : (updateAssoc l k b).lookup k2 = l.lookup k2 := by
  induction l with
  | nil => rfl
  | cons q t ih =>
    by_cases hq : q.1 == k
    · have : q.1 = k := eq_of_beq hq
      subst this
      simp [updateAssoc, List.lookup, beq_eq_false_iff_ne.mpr h]
    · by_cases hk2 : k2 = q.1
      · simp [updateAssoc, hq, List.lookup, hk2]
      · simp only [updateAssoc, hq, if_false, Bool.false_eq_true, List.lookup,
          beq_eq_false_iff_ne.mpr hk2]
        exact ih

/-- The crossings loop preserves the key sequence of the inProvince
dictionary. -/
theorem crossingsLoop_keys {myLon myLat : ℚ} {tree : List LonghurstNode} :
    ∀ {inProv out : List (String × Bool)},
      crossingsLoop myLon myLat inProv tree = .ok out →
      out.map Prod.fst = inProv.map Prod.fst := by
  induction tree with
  | nil =>
    intro inProv out h
    simp only [crossingsLoop] at h
    cases h
    rfl
  | cons f rest ih =>
    intro inProv out h
    simp only [crossingsLoop] at h
    cases hlk : inProv.lookup f.fid with
    | none => rw [hlk] at h; exact ih h
    | some b =>
      cases b with
      | false => rw [hlk] at h; exact ih h
      | true =>
        rw [hlk] at h
        cases hcf : crossingsOfFeature myLon myLat f with
        | error e => rw [hcf] at h; cases h
        | ok n =>
          rw [hcf] at h
          rw [ih h, updateAssoc_keys]

/-- If some element of the list maps to an error, the effectful map returns
an error: no result list is produced. -/
theorem mapExcept_error_of_mem {α β : Type} {f : α → Except PyError β} {l : List α} {a : α}
    (ha : a ∈ l) {e : PyError} (he : f a = .error e) :
    ∃ e2, mapExcept f l = .error e2 := by
  induction l with
  | nil => cases ha
  | cons b t ih =>
    rcases List.mem_cons.mp ha with h | h
    · exact ⟨e, by simp [mapExcept, h ▸ he]⟩
    · cases hfb : f b with
      | error e3 => exact ⟨e3, by simp [mapExcept, hfb]⟩
      | ok vb =>
        rcases ih h with ⟨e2, h2⟩
        exact ⟨e2, by simp [mapExcept, hfb, h2]⟩

/-- Every element of a successful effectful map comes from some element of
the input list. -/
theorem mapExcept_ok_mem {α β : Type} {f : α → Except PyError β} :
    ∀ {l : List α} {bs : List β}, mapExcept f l = .ok bs →
      ∀ b ∈ bs, ∃ a ∈ l, f a = .ok b := by
  intro l
  induction l with
  | nil =>
    intro bs h b hb
    simp only [mapExcept] at h
    cases h
    cases hb
  | cons a t ih =>
    intro bs h b hb
    simp only [mapExcept] at h
    cases hfa : f a with
    | error e => rw [hfa] at h; cases h
    | ok v =>
      rw [hfa] at h
      cases hmt : mapExcept f t with
      | error e => rw [hmt] at h; cases h
      | ok vs =>
        rw [hmt] at h
        cases h
        rcases List.mem_cons.mp hb with h1 | h1
        · exact ⟨a, List.mem_cons_self a t, h1 ▸ hfa⟩
        · rcases ih hmt b h1 with ⟨a2, ha2, hfa2⟩
          exact ⟨a2, List.mem_cons_of_mem a ha2, hfa2⟩

/-- When every element maps to a success, the effectful map succeeds. -/
theorem mapExcept_ok_of_forall {α β : Type} {f : α → Except PyError β} :
    ∀ {l : List α}, (∀ a ∈ l, ∃ b, f a = .ok b) →
      ∃ bs, mapExcept f l = .ok bs := by
  intro l
  induction l with
  | nil => exact fun _ => ⟨[], rfl⟩
  | cons a t ih =>
    intro h
    rcases h a (List.mem_cons_self a t) with ⟨b, hb⟩
    rcases ih (fun a2 ha2 => h a2 (List.mem_cons_of_mem a ha2)) with ⟨bs, hbs⟩
    exact ⟨b :: bs, by simp [mapExcept, hb, hbs]⟩

/-- The recursive ring count equals the count over the explicit index range
0 to length - 2, each index paired with its successor. -/
theorem ringCrossings_eq_countP (myLon myLat : ℚ) (r : List Vertex) :
    ringCrossings myLon myLat r =
      (List.range (r.length - 1)).countP
        (fun i => edgeCrosses myLon myLat (r.getD i default) (r.getD (i + 1) default)) := by
  induction r with
  | nil => rfl
  | cons p t ih =>
    cases t with
    | nil => rfl
    | cons q rest =>
      have hlen : (p :: q :: rest).length - 1 = (q :: rest).length - 1 + 1 := by
        simp [Nat.succ_sub_one]
      rw [hlen, List.range_succ_eq_map, List.countP_cons, List.countP_map]
      have hcomp :
          ((fun i => edgeCrosses myLon myLat ((p :: q :: rest).getD i default)
              ((p :: q :: rest).getD (i + 1) default)) ∘ Nat.succ) =
          (fun i => edgeCrosses myLon myLat ((q :: rest).getD i default)
              ((q :: rest).getD (i + 1) default)) := by
        funext i
        simp [Function.comp, List.getD_cons_succ]
      rw [hcomp, ringCrossings, ih]
      simp [List.getD_cons_zero, List.getD_cons_succ, Nat.add_comm]

/-- One step of the crossings loop on a feature currently mapped to True:
the entry is overwritten with the parity of the total crossings count. -/
theorem crossingsLoop_step {myLon myLat : ℚ} {inProv : List (String × Bool)}
    {f : LonghurstNode} {rest : List LonghurstNode} {n : ℕ}
    (hlk : inProv.lookup f.fid = some true)
    (hn : crossingsOfFeature myLon myLat f = .ok n) :
    crossingsLoop myLon myLat inProv (f :: rest) =
      crossingsLoop myLon myLat (updateAssoc inProv f.fid (decide (n % 2 = 1))) rest := by
  simp [crossingsLoop, hlk, hn]

/-- The returned value of Get_LonghurstProvince4coord is fully determined
by the computed solution list and the num2prov argument, for every verbose
flag, as long as every inProvince key is still a key of the provinces
dictionary.  The key condition discharges the provinces subscripts done by
the verbose printing in the no-solution branch. -/
theorem get_result_eq_resolve (myLon myLat : ℚ)
    (provinces : List (String × ProvinceBoundary)) (tree : List LonghurstNode)
    (num2prov : Option (List (String × Int))) (verbose : Bool)
    (inProv : List (String × Bool)) (sol : List (String × String))
    (h1 : crossingsLoop myLon myLat (initialInProvince provinces myLon myLat) tree = .ok inProv)
    (h2 : solutionList provinces inProv = .ok sol) :
    (Get_LonghurstProvince4coord myLon myLat provinces tree num2prov verbose).1 =
      resolveSolution sol num2prov := by
  have hkeys : ∀ kb ∈ inProv, ∃ b, provinces.lookup kb.1 = some b := by
    intro kb hkb
    apply lookup_isSome_of_mem_keys
    have hk1 : kb.1 ∈ inProv.map Prod.fst := List.mem_map_of_mem Prod.fst hkb
    rw [crossingsLoop_keys h1] at hk1
    simp only [initialInProvince, List.map_map] at hk1
    rcases List.mem_map.mp hk1 with ⟨pb, hpb, hfst⟩
    rw [← hfst]
    exact List.mem_map_of_mem Prod.fst (List.mem_of_mem_filter hpb)
  have hlog : ∃ log, mapExcept (fun kb =>
      match provinces.lookup kb.1 with
      | some b => Except.ok (b.provCode ++ "\t" ++ b.provName)
      | none => Except.error PyError.keyError) inProv = .ok log := by
    apply mapExcept_ok_of_forall
    intro kb hkb
    rcases hkeys kb hkb with ⟨b, hb⟩
    exact ⟨b.provCode ++ "\t" ++ b.provName, by rw [hb]⟩
  rcases hlog with ⟨log, hlog⟩
  unfold Get_LonghurstProvince4coord
  simp only [h1, h2]
  match sol with
  | [] =>
    cases verbose with
    | false => rfl
    | true => simp only [if_true, hlog]; rfl
  | [s] =>
    cases num2prov with
    | none => rfl
    | some m =>
      cases hm : m.lookup s.1 with
      | none => simp [resolveSolution, hm]
      | some v => simp [resolveSolution, hm]
  | a :: b :: t => rfl

/-! Concrete fixtures used by the witness theorems: a synthetic square
province with an explicitly closed ring, and a second identical province
for the multi-match case. -/

def testBoundary : ProvinceBoundary :=
  { provName := "TestProvince", provCode := "TEST", x1 := 0, y1 := 0, x2 := 10, y2 := 10 }

def testBoundary2 : ProvinceBoundary :=
  { provName := "OtherProvince", provCode := "OTHR", x1 := 0, y1 := 0, x2 := 10, y2 := 10 }

def testNode : LonghurstNode :=
  { fid := "lp1", provcodeTexts := [some "TEST"], provdescrTexts := [some "TestProvince"],
    coordTexts := [some "0,0 10,10", some "0,0 0,10 10,10 10,0 0,0"],
    geomCoordTexts := [some "0,0 0,10 10,10 10,0 0,0"] }

def testNode2 : LonghurstNode :=
  { fid := "lp2", provcodeTexts := [some "OTHR"], provdescrTexts := [some "OtherProvince"],
    coordTexts := [some "0,0 10,10", some "0,0 0,10 10,10 10,0 0,0"],
    geomCoordTexts := [some "0,0 0,10 10,10 10,0 0,0"] }

def testProvinces : List (String × ProvinceBoundary) :=
  [("lp1", testBoundary)]

def testTree : List LonghurstNode :=
  [testNode]

def testProvinces2 : List (String × ProvinceBoundary) :=
  [("lp1", testBoundary), ("lp2", testBoundary2)]

def testTree2 : List LonghurstNode :=
  [testNode, testNode2]

/-! The claim theorems. -/

/-- C2: a stored boundary is a ray-casting candidate for a query point
exactly when the query latitude lies in the inclusive interval from y1 to
y2 and the query longitude lies in the inclusive interval from x1 to x2 of
the stored bounding box. -/
theorem c2_bbox_candidate_iff (provinces : List (String × ProvinceBoundary)) (myLon myLat : ℚ)
    (fid : String) (b : ProvinceBoundary) (hmem : (fid, b) ∈ provinces) :
    (fid, b) ∈ bboxCandidates provinces myLon myLat ↔
      ((b.y1 ≤ myLat ∧ myLat ≤ b.y2) ∧ (b.x1 ≤ myLon ∧ myLon ≤ b.x2)) := by
  rw [bboxCandidates, List.mem_filter]
  simp [hmem, inBBox, ge_iff_le]

/-- Witness for C2 at a concrete store and query point. -/
theorem c2_bbox_candidate_iff_witness :
    ("lp1", testBoundary) ∈ bboxCandidates testProvinces 5 5 :=
  (c2_bbox_candidate_iff testProvinces 5 5 "lp1" testBoundary (by decide)).mpr (by decide)

/-- C3: whenever the computed solution list does not have exactly one
entry, the classifier returns the NaN sentinel as an ordinary value, for
every num2prov dictionary and verbose flag; in particular the zero-match
and the multi-match outcomes return the identical sentinel value and are
indistinguishable at the call site. -/
theorem c3_nomatch_multi_return_nan (myLon myLat : ℚ)
    (provinces : List (String × ProvinceBoundary)) (tree : List LonghurstNode)
    (num2prov : Option (List (String × Int))) (verbose : Bool)
    (inProv : List (String × Bool)) (sol : List (String × String))
    (h1 : crossingsLoop myLon myLat (initialInProvince provinces myLon myLat) tree = .ok inProv)
    (h2 : solutionList provinces inProv = .ok sol)
    (hn : sol.length ≠ 1) :
    (Get_LonghurstProvince4coord myLon myLat provinces tree num2prov verbose).1 =
      Except.ok ClassifyResult.NaN := by
  rw [get_result_eq_resolve myLon myLat provinces tree num2prov verbose inProv sol h1 h2]
  match sol with
  | [] => rfl
  | [s] => simp at hn
  | a :: b :: t => rfl

/-- Witness for C3: a point inside two overlapping provinces returns the
NaN sentinel, the same value returned for the zero-match case. -/
theorem c3_nomatch_multi_return_nan_witness :
    (Get_LonghurstProvince4coord 5 5 testProvinces2 testTree2
        (some [("TEST", 7), ("OTHR", 8)]) true).1 = Except.ok ClassifyResult.NaN :=
  c3_nomatch_multi_return_nan 5 5 testProvinces2 testTree2
    (some [("TEST", 7), ("OTHR", 8)]) true
    [("lp1", true), ("lp2", true)]
    [("TEST", "TestProvince"), ("OTHR", "OtherProvince")]
    (by decide) (by decide) (by decide)

/-- C5: when the solution list has exactly one entry, the classifier
returns the num2prov dictionary value of the provCode of that entry, and
when that provCode has no entry the call raises KeyError, which is a
Python LookupError. -/
theorem c5_single_match_registry_lookup (myLon myLat : ℚ)
    (provinces : List (String × ProvinceBoundary)) (tree : List LonghurstNode)
    (m : List (String × Int)) (verbose : Bool)
    (inProv : List (String × Bool)) (code name : String)
    (h1 : crossingsLoop myLon myLat (initialInProvince provinces myLon myLat) tree = .ok inProv)
    (h2 : solutionList provinces inProv = .ok [(code, name)]) :
    (∀ v, m.lookup code = some v →
      (Get_LonghurstProvince4coord myLon myLat provinces tree (some m) verbose).1 =
        Except.ok (ClassifyResult.prov v)) ∧
    (m.lookup code = none →
      (Get_LonghurstProvince4coord myLon myLat provinces tree (some m) verbose).1 =
        Except.error PyError.keyError ∧
      PyError.keyError.isLookupError = true) := by
  have h := get_result_eq_resolve myLon myLat provinces tree (some m) verbose
    inProv [(code, name)] h1 h2
  constructor
  · intro v hv
    rw [h]
    simp [resolveSolution, hv]
  · intro hv
    rw [h]
    simp [resolveSolution, hv, PyError.isLookupError]

/-- Witness for C5: the single-match store returns the registry value, and
an empty registry makes the same lookup raise KeyError. -/
theorem c5_single_match_registry_lookup_witness :
    (Get_LonghurstProvince4coord 5 5 testProvinces testTree (some [("TEST", 7)]) false).1 =
      Except.ok (ClassifyResult.prov 7) ∧
    (Get_LonghurstProvince4coord 5 5 testProvinces testTree (some []) false).1 =
      Except.error PyError.keyError :=
  ⟨(c5_single_match_registry_lookup 5 5 testProvinces testTree [("TEST", 7)] false
      [("lp1", true)] "TEST" "TestProvince" (by decide) (by decide)).1 7 (by decide),
   ((c5_single_match_registry_lookup 5 5 testProvinces testTree [] false
      [("lp1", true)] "TEST" "TestProvince" (by decide) (by decide)).2 (by decide)).1⟩

/-- C9: with a fixed supplied store and registry the returned value is a
deterministic function of the coordinate alone, and the returned value
with verbose enabled equals the returned value with verbose disabled for
every input: the verbose flag only changes the diagnostic output. -/
theorem c9_result_independent_of_verbose (myLon myLat : ℚ)
    (provinces : List (String × ProvinceBoundary)) (tree : List LonghurstNode)
    (num2prov : Option (List (String × Int))) (v1 v2 : Bool) :
    (Get_LonghurstProvince4coord myLon myLat provinces tree num2prov v1).1 =
      (Get_LonghurstProvince4coord myLon myLat provinces tree num2prov v2).1 := by
  cases h1 : crossingsLoop myLon myLat (initialInProvince provinces myLon myLat) tree with
  | error e => simp only [Get_LonghurstProvince4coord, h1]
  | ok inProv =>
    cases h2 : solutionList provinces inProv with
    | error e => simp only [Get_LonghurstProvince4coord, h1, h2]
    | ok sol =>
      rw [get_result_eq_resolve myLon myLat provinces tree num2prov v1 inProv sol h1 h2,
          get_result_eq_resolve myLon myLat provinces tree num2prov v2 inProv sol h1 h2]

/-- C10: with num2prov left as None while provinces and tree are supplied,
any solution list without exactly one entry still returns the NaN
sentinel, but a single-entry solution list makes the call raise TypeError
from subscripting None instead of returning a province number. -/
theorem c10_none_num2prov (myLon myLat : ℚ)
    (provinces : List (String × ProvinceBoundary)) (tree : List LonghurstNode)
    (verbose : Bool) (inProv : List (String × Bool)) (sol : List (String × String))
    (h1 : crossingsLoop myLon myLat (initialInProvince provinces myLon myLat) tree = .ok inProv)
    (h2 : solutionList provinces inProv = .ok sol) :
    (sol.length ≠ 1 →
      (Get_LonghurstProvince4coord myLon myLat provinces tree none verbose).1 =
        Except.ok ClassifyResult.NaN) ∧
    (∀ s, sol = [s] →
      (Get_LonghurstProvince4coord myLon myLat provinces tree none verbose).1 =
        Except.error PyError.typeError) := by
  have h := get_result_eq_resolve myLon myLat provinces tree none verbose inProv sol h1 h2
  constructor
  · intro hn
    rw [h]
    match sol with
    | [] => rfl
    | [s] => simp at hn
    | a :: b :: t => rfl
  · intro s hs
    subst hs
    rw [h]
    rfl

/-- Witness for C10: with None as num2prov a unique match raises TypeError
while a point outside every bounding box still returns NaN. -/
theorem c10_none_num2prov_witness :
    (Get_LonghurstProvince4coord 5 5 testProvinces testTree none false).1 =
      Except.error PyError.typeError ∧
    (Get_LonghurstProvince4coord 20 20 testProvinces testTree none false).1 =
      Except.ok ClassifyResult.NaN :=
  ⟨(c10_none_num2prov 5 5 testProvinces testTree false [("lp1", true)]
      [("TEST", "TestProvince")] (by decide) (by decide)).2
      ("TEST", "TestProvince") rfl,
   (c10_none_num2prov 20 20 testProvinces testTree false [] []
      (by decide) (by decide)).1 (by decide)⟩

/-- The edge test written as one decidable proposition. -/
theorem edgeCrosses_eq_decide (myLon myLat : ℚ) (p q : Vertex) :
    edgeCrosses myLon myLat p q =
      decide (((p.lat ≥ myLat ∧ q.lat ≤ myLat) ∨ (p.lat ≤ myLat ∧ q.lat ≥ myLat)) ∧
              myLon ≤ q.lon) := by
  simp [edgeCrosses, Bool.decide_and, Bool.decide_or]

/-- C1: for a candidate feature, the crossings counter counts exactly the
consecutive vertex pairs whose latitudes straddle the query latitude with
inclusive comparisons and whose second vertex longitude is at least the
query longitude (no edge x-intersection is computed), and the feature is
classified inside exactly when that total count is odd. -/
theorem c1_crossing_increment_and_parity (myLon myLat : ℚ) (f : LonghurstNode)
    (rings : List (List Vertex)) (n : ℕ)
    (hr : featureRings f = .ok rings)
    (hn : crossingsOfFeature myLon myLat f = .ok n) :
    n = (rings.map (fun r =>
          (List.range (r.length - 1)).countP (fun i =>
            decide ((((r.getD i default).lat ≥ myLat ∧ (r.getD (i + 1) default).lat ≤ myLat) ∨
                     ((r.getD i default).lat ≤ myLat ∧ (r.getD (i + 1) default).lat ≥ myLat)) ∧
                    myLon ≤ (r.getD (i + 1) default).lon)))).sum ∧
    (∀ inProv : List (String × Bool), inProv.lookup f.fid = some true →
      ∃ out, crossingsLoop myLon myLat inProv [f] = .ok out ∧
        out.lookup f.fid = some (decide (n % 2 = 1))) := by
  have hok : crossingsOfFeature myLon myLat f =
      .ok ((rings.map (ringCrossings myLon myLat)).sum) := by
    rw [crossingsOfFeature, hr]
  have hval : n = (rings.map (ringCrossings myLon myLat)).sum := by
    rw [hn] at hok
    exact (Except.ok.injEq _ _).mp hok
  constructor
  · rw [hval]
    congr 1
    apply List.map_congr_left
    intro r _
    rw [ringCrossings_eq_countP]
    congr 1
    funext i
    rw [edgeCrosses_eq_decide]
  · intro inProv hlk
    refine ⟨updateAssoc inProv f.fid (decide (n % 2 = 1)), ?_, ?_⟩
    · rw [crossingsLoop_step hlk hn]
      rfl
    · exact lookup_updateAssoc_self _ hlk

/-- Witness for C1 at the square test feature and an interior point. -/
theorem c1_crossing_increment_and_parity_witness :
    ∃ out, crossingsLoop 5 5 [("lp1", true)] [testNode] = .ok out ∧
      out.lookup "lp1" = some (decide (1 % 2 = 1)) :=
  (c1_crossing_increment_and_parity 5 5 testNode
      [[⟨0, 0⟩, ⟨0, 10⟩, ⟨10, 10⟩, ⟨10, 0⟩, ⟨0, 0⟩]] 1
      (by decide) (by decide)).2 [("lp1", true)] (by decide)

/-- C4: the ring loop tests only the explicit consecutive index pairs, 0 up
to the ring length minus 2, each paired with its successor, so the closing
edge from the last stored vertex back to the first is never tested; the
counts of all coordinate rings of a feature accumulate into one single
counter and the parity of that summed counter is what the classifier
stores for the feature. -/
theorem c4_consecutive_pairs_single_counter (myLon myLat : ℚ) (f : LonghurstNode)
    (rings : List (List Vertex))
    (hr : featureRings f = .ok rings) :
    crossingsOfFeature myLon myLat f =
      .ok ((rings.map (fun r =>
          (List.range (r.length - 1)).countP (fun i =>
            edgeCrosses myLon myLat (r.getD i default) (r.getD (i + 1) default)))).sum) ∧
    (∀ inProv out : List (String × Bool), inProv.lookup f.fid = some true →
      crossingsLoop myLon myLat inProv [f] = .ok out →
      out.lookup f.fid = some (decide ((rings.map (fun r =>
          (List.range (r.length - 1)).countP (fun i =>
            edgeCrosses myLon myLat (r.getD i default) (r.getD (i + 1) default)))).sum % 2 = 1))) := by
  have hval : crossingsOfFeature myLon myLat f =
      .ok ((rings.map (fun r =>
          (List.range (r.length - 1)).countP (fun i =>
            edgeCrosses myLon myLat (r.getD i default) (r.getD (i + 1) default)))).sum) := by
    rw [crossingsOfFeature, hr]
    show Except.ok ((rings.map (ringCrossings myLon myLat)).sum) = _
    congr 1
    congr 1
    apply List.map_congr_left
    intro r _
    exact ringCrossings_eq_countP myLon myLat r
  refine ⟨hval, ?_⟩
  intro inProv out hlk hloop
  rw [crossingsLoop_step hlk hval] at hloop
  simp only [crossingsLoop] at hloop
  cases hloop
  exact lookup_updateAssoc_self _ hlk

/-- Witness for C4 at the square test feature: the ring has five stored
vertices, so exactly the four index pairs 0 to 3 are tested and the single
counter totals 1. -/
theorem c4_consecutive_pairs_single_counter_witness :
    crossingsOfFeature 5 5 testNode =
      .ok (([[⟨0, 0⟩, ⟨0, 10⟩, ⟨10, 10⟩, ⟨10, 0⟩, (⟨0, 0⟩ : Vertex)]].map (fun r =>
          (List.range (r.length - 1)).countP (fun i =>
            edgeCrosses 5 5 (r.getD i default) (r.getD (i + 1) default)))).sum) :=
  (c4_consecutive_pairs_single_counter 5 5 testNode
      [[⟨0, 0⟩, ⟨0, 10⟩, ⟨10, 10⟩, ⟨10, 0⟩, ⟨0, 0⟩]] (by decide)).1

/-- Counterexample to C6 as stated: the Rosie registry lookup on the
unregistered finite key 23 raises ValueError, which is not a Python
LookupError; and the MIT registry lookup on the NaN sentinel raises
KeyError instead of returning the sentinel unchanged. -/
theorem c6_counterexample :
    RosieLonghurstProvinceFileNum2Province (.num 23) = .error .valueError ∧
    PyError.valueError.isLookupError = false ∧
    LonghurstProvinceFileNum2Province .nan = .error .keyError := by
  decide

/-- C6 amended: only the Rosie number-to-code lookup tolerates the NaN
sentinel, returning it unchanged, and it raises ValueError, not a
LookupError, for finite unregistered keys; the MIT and MarineRegions
number-to-code lookups and the code-to-name lookup raise KeyError, which
is a LookupError, for every unregistered key, the NaN sentinel included. -/
theorem c6_amended_registry_failure_modes :
    (RosieLonghurstProvinceFileNum2Province .nan = .ok .nanOut) ∧
    (∀ n : Int, RosieLonghurstProvinceFileNum2Province_Rnum2prov.lookup n = none →
      RosieLonghurstProvinceFileNum2Province (.num n) = .error .valueError ∧
      PyError.valueError.isLookupError = false) ∧
    (LonghurstProvinceFileNum2Province .nan = .error .keyError) ∧
    (∀ n : Int, LonghurstProvinceFileNum2Province_num2prov.lookup n = none →
      LonghurstProvinceFileNum2Province (.num n) = .error .keyError ∧
      PyError.keyError.isLookupError = true) ∧
    (MarineRegionsOrg_LonghurstProvinceFileNum2Province .nan = .error .keyError) ∧
    (∀ n : Int, MarineRegionsOrg_LonghurstProvinceFileNum2Province_num2prov.lookup n = none →
      MarineRegionsOrg_LonghurstProvinceFileNum2Province (.num n) = .error .keyError) ∧
    (Get_LonghurstProvinceName4Num .nan = .error .keyError) ∧
    (∀ s : String, Get_LonghurstProvinceName4Num_dict.lookup s = none →
      Get_LonghurstProvinceName4Num (.code s) = .error .keyError) := by
  refine ⟨rfl, ?_, rfl, ?_, rfl, ?_, rfl, ?_⟩
  · intro n h
    exact ⟨by simp [RosieLonghurstProvinceFileNum2Province, h], rfl⟩
  · intro n h
    exact ⟨by simp [LonghurstProvinceFileNum2Province, h], rfl⟩
  · intro n h
    simp [MarineRegionsOrg_LonghurstProvinceFileNum2Province, h]
  · intro s h
    simp [Get_LonghurstProvinceName4Num, h]

/-- Witness for the amended C6 at concrete unregistered keys. -/
theorem c6_amended_registry_failure_modes_witness :
    RosieLonghurstProvinceFileNum2Province (.num 0) = .error .valueError ∧
    LonghurstProvinceFileNum2Province (.num 0) = .error .keyError ∧
    MarineRegionsOrg_LonghurstProvinceFileNum2Province (.num 54) = .error .keyError ∧
    Get_LonghurstProvinceName4Num (.code "ZZZZ") = .error .keyError :=
  ⟨(c6_amended_registry_failure_modes.2.1 0 (by decide)).1,
   (c6_amended_registry_failure_modes.2.2.2.1 0 (by decide)).1,
   c6_amended_registry_failure_modes.2.2.2.2.2.1 54 (by decide),
   c6_amended_registry_failure_modes.2.2.2.2.2.2.2 "ZZZZ" (by decide)⟩

/-- Dissection of a successful per-feature parse: the key is the node fid
and the stored bounding box is exactly the float conversion of the first
two comma-separated coordinate pairs of the first coordinates text. -/
theorem parseNode_ok_elim {node : LonghurstNode} {fid : String} {b : ProvinceBoundary}
    (h : parseNode node = .ok (fid, b)) :
    fid = node.fid ∧
    ∃ txt, firstText node.coordTexts = .ok txt ∧
    ∃ p0 p1, (splitOnChar ' ' txt.toList)[0]? = some p0 ∧
             (splitOnChar ' ' txt.toList)[1]? = some p1 ∧
    ∃ x1s y1s, splitTwo p0 = .ok (x1s, y1s) ∧
      parseFloat x1s = some b.x1 ∧ parseFloat y1s = some b.y1 ∧
    ∃ x2s y2s, splitTwo p1 = .ok (x2s, y2s) ∧
      parseFloat x2s = some b.x2 ∧ parseFloat y2s = some b.y2 := by
  unfold parseNode at h
  cases hpc : firstText node.provcodeTexts with
  | error e => rw [hpc] at h; exact absurd h (by simp)
  | ok provCode =>
  simp only [hpc] at h
  cases hpd : firstText node.provdescrTexts with
  | error e => rw [hpd] at h; exact absurd h (by simp)
  | ok provName =>
  simp only [hpd] at h
  cases hct : firstText node.coordTexts with
  | error e => rw [hct] at h; exact absurd h (by simp)
  | ok txt =>
  simp only [hct] at h
  cases h0 : (splitOnChar ' ' txt.toList)[0]? with
  | none => rw [h0] at h; exact absurd h (by simp)
  | some p0 =>
  simp only [h0] at h
  cases h1 : (splitOnChar ' ' txt.toList)[1]? with
  | none => rw [h1] at h; exact absurd h (by simp)
  | some p1 =>
  simp only [h1] at h
  cases hs0 : splitTwo p0 with
  | error e => rw [hs0] at h; exact absurd h (by simp)
  | ok xy1 =>
  obtain ⟨x1s, y1s⟩ := xy1
  simp only [hs0] at h
  cases hs1 : splitTwo p1 with
  | error e => rw [hs1] at h; exact absurd h (by simp)
  | ok xy2 =>
  obtain ⟨x2s, y2s⟩ := xy2
  simp only [hs1] at h
  cases hf1 : parseFloat x1s with
  | none => rw [hf1] at h; exact absurd h (by simp)
  | some x1 =>
  simp only [hf1] at h
  cases hf2 : parseFloat y1s with
  | none => rw [hf2] at h; exact absurd h (by simp)
  | some y1 =>
  simp only [hf2] at h
  cases hf3 : parseFloat x2s with
  | none => rw [hf3] at h; exact absurd h (by simp)
  | some x2 =>
  simp only [hf3] at h
  cases hf4 : parseFloat y2s with
  | none => rw [hf4] at h; exact absurd h (by simp)
  | some y2 =>
  simp only [hf4] at h
  simp only [Except.ok.injEq, Prod.mk.injEq] at h
  obtain ⟨hfid, hb⟩ := h
  refine ⟨hfid.symm, txt, rfl, p0, p1, h0, h1, x1s, y1s, hs0, ?_, ?_, x2s, y2s, hs1, ?_, ?_⟩
  · rw [← hb]; exact hf1
  · rw [← hb]; exact hf2
  · rw [← hb]; exact hf3
  · rw [← hb]; exact hf4

/-- C7: the boundary store build parses per feature the provCode, provName
and a bounding box made of the first two comma-separated coordinate pairs
of the first coordinates element, converted with float into x1, y1, x2,
y2; a feature missing a required field fails, any feature failure makes
the whole load fail with an exception, and then no fid-to-boundary
mapping at all is returned. -/
theorem c7_parse_bbox_and_all_or_nothing (nodes : List LonghurstNode) :
    ((∃ node ∈ nodes, ∃ e, parseNode node = .error e) →
      ∃ e2, ParseLonghurstProvinceFile nodes = .error e2) ∧
    (∀ node ∈ nodes,
      (node.provcodeTexts = [] ∨ node.provdescrTexts = [] ∨ node.coordTexts = []) →
      ∃ e, parseNode node = .error e) ∧
    (∀ provs, ParseLonghurstProvinceFile nodes = .ok provs →
      ∀ fid b, (fid, b) ∈ provs →
        ∃ node ∈ nodes, parseNode node = .ok (fid, b) ∧ fid = node.fid ∧
          ∃ txt, firstText node.coordTexts = .ok txt ∧
          ∃ p0 p1, (splitOnChar ' ' txt.toList)[0]? = some p0 ∧
                   (splitOnChar ' ' txt.toList)[1]? = some p1 ∧
          ∃ x1s y1s, splitTwo p0 = .ok (x1s, y1s) ∧
            parseFloat x1s = some b.x1 ∧ parseFloat y1s = some b.y1 ∧
          ∃ x2s y2s, splitTwo p1 = .ok (x2s, y2s) ∧
            parseFloat x2s = some b.x2 ∧ parseFloat y2s = some b.y2) := by
  refine ⟨?_, ?_, ?_⟩
  · rintro ⟨node, hmem, e, he⟩
    exact mapExcept_error_of_mem hmem he
  · rintro node _ (hmiss | hmiss | hmiss)
    · exact ⟨.indexError, by rw [parseNode, hmiss]; rfl⟩
    · cases hpc : firstText node.provcodeTexts with
      | error e => exact ⟨e, by rw [parseNode, hpc]⟩
      | ok provCode =>
        exact ⟨.indexError, by rw [parseNode, hpc, hmiss]; rfl⟩
    · cases hpc : firstText node.provcodeTexts with
      | error e => exact ⟨e, by rw [parseNode, hpc]⟩
      | ok provCode =>
        cases hpd : firstText node.provdescrTexts with
        | error e => exact ⟨e, by rw [parseNode, hpc, hpd]⟩
        | ok provName =>
          exact ⟨.indexError, by rw [parseNode, hpc, hpd, hmiss]; rfl⟩
  · intro provs hok fid b hmem
    rcases mapExcept_ok_mem hok (fid, b) hmem with ⟨node, hnode, hpn⟩
    rcases parseNode_ok_elim hpn with ⟨hfid, rest⟩
    exact ⟨node, hnode, hpn, hfid, rest⟩

/-- Witness for C7: a node without a provcode element aborts the load, and
a well-formed node yields the bounding box read from its first two
coordinate pairs. -/
theorem c7_parse_bbox_and_all_or_nothing_witness :
    (∃ e2, ParseLonghurstProvinceFile
      [{ fid := "bad1", provcodeTexts := [], provdescrTexts := [some "x"],
         coordTexts := [some "0,0 1,1"], geomCoordTexts := [] }] = .error e2) ∧
    (∃ node ∈ testTree, parseNode node = .ok ("lp1", testBoundary) ∧ "lp1" = node.fid ∧
      ∃ txt, firstText node.coordTexts = .ok txt ∧
      ∃ p0 p1, (splitOnChar ' ' txt.toList)[0]? = some p0 ∧
               (splitOnChar ' ' txt.toList)[1]? = some p1 ∧
      ∃ x1s y1s, splitTwo p0 = .ok (x1s, y1s) ∧
        parseFloat x1s = some testBoundary.x1 ∧ parseFloat y1s = some testBoundary.y1 ∧
      ∃ x2s y2s, splitTwo p1 = .ok (x2s, y2s) ∧
        parseFloat x2s = some testBoundary.x2 ∧ parseFloat y2s = some testBoundary.y2) :=
  ⟨(c7_parse_bbox_and_all_or_nothing _).1
      ⟨_, List.mem_cons_self _ _, .indexError, by decide⟩,
   (c7_parse_bbox_and_all_or_nothing testTree).2.2 [("lp1", testBoundary)] (by decide)
      "lp1" testBoundary (by decide)⟩

/-- The keys of the inverted registry are the values of the registry. -/
theorem pyInvert_keys (d : List (Int × String)) :
    (pyInvert d).map Prod.fst = d.map Prod.snd := by
  simp [pyInvert, List.map_map, Function.comp]

/-- Round-trip property of one registry literal: keys and values are each
pairwise distinct, every registered pair is found by forward lookup, and
the inverted mapping sends each value back to its key. -/
def registryRoundTrip (d : List (Int × String)) : Prop :=
  (d.map Prod.fst).Nodup ∧ (d.map Prod.snd).Nodup ∧
  ∀ p ∈ d, d.lookup p.1 = some p.2 ∧ (pyInvert d).lookup p.2 = some p.1

/-- The common argument establishing the round trip from the two
distinctness checks. -/
theorem registryRoundTrip_of_nodup {d : List (Int × String)}
    (hk : (d.map Prod.fst).Nodup) (hv : (d.map Prod.snd).Nodup) :
    registryRoundTrip d := by
  refine ⟨hk, hv, ?_⟩
  intro p hp
  refine ⟨lookup_eq_of_mem hk hp, ?_⟩
  have hinv : (p.2, p.1) ∈ pyInvert d := List.mem_map_of_mem (fun q => (q.2, q.1)) hp
  have hik : ((pyInvert d).map Prod.fst).Nodup := by
    rw [pyInvert_keys]
    exact hv
  exact lookup_eq_of_mem hik hinv

/-- C8: for each of the three registry literals the inverted mapping is the
exact inverse of the forward mapping: every registered number reaches its
code by forward lookup and returns to the same number through the inverted
mapping, and since the values of each registry are pairwise distinct the
inversion loses no entries. -/
theorem c8_registry_inversion_roundtrip :
    registryRoundTrip LonghurstProvinceFileNum2Province_num2prov ∧
    registryRoundTrip MarineRegionsOrg_LonghurstProvinceFileNum2Province_num2prov ∧
    registryRoundTrip RosieLonghurstProvinceFileNum2Province_Rnum2prov :=
  ⟨registryRoundTrip_of_nodup (by decide) (by decide),
   registryRoundTrip_of_nodup (by decide) (by decide),
   registryRoundTrip_of_nodup (by decide) (by decide)⟩

/-- Witness for C8 at concrete registry entries. -/
theorem c8_registry_inversion_roundtrip_witness :
    (pyInvert RosieLonghurstProvinceFileNum2Province_Rnum2prov).lookup "LAKE" = some 99 ∧
    (pyInvert LonghurstProvinceFileNum2Province_num2prov).lookup "FKLD" = some 1 :=
  ⟨(c8_registry_inversion_roundtrip.2.2.2.2 (99, "LAKE") (by decide)).2,
   (c8_registry_inversion_roundtrip.1.2.2 (1, "FKLD") (by decide)).2⟩
